import Mathlib

/-
Shallow embedding of the user-service identity endpoints
(moonsol124/s6-service-user). The Express handlers in the source
(register, authenticate, list/get/update/delete profile) are translated to
pure Lean functions over a list-of-rows model of the remote users table.
The remote store and the peer deletion service are external collaborators;
their infrastructure failures are passed to the handlers as explicit
response arguments, exactly as the handlers receive a data/error pair from
each awaited call in the source. Data-dependent store behaviour (uniqueness
constraints, row lookup, row deletion) is modelled from the relational
semantics the source relies on.
-/

namespace UserService

/-- A row of the users table. The store assigns id and created_at and
defaults role to "user" when the insert omits it; timestamps are abstracted
to naturals. -/
structure UserRow where
  id : Nat
  username : String
  email : String
  password_hash : String
  role : String
  created_at : Nat
  updated_at : Nat
deriving DecidableEq, Repr

/-- An error object as returned by the store client: a code string such as
"PGRST116" or "23505" and a message. -/
structure StoreErr where
  code : String
  message : String
deriving DecidableEq, Repr

/-- A JSON scalar appearing in a response body. -/
inductive Val where
  | s (v : String)
  | n (v : Nat)
deriving DecidableEq, Repr

/-- A response body: a JSON object, a JSON array of objects, or the empty
body of a 204 response. -/
inductive Body where
  | obj (fields : List (String × Val))
  | arr (items : List (List (String × Val)))
  | empty
deriving DecidableEq, Repr

/-- An HTTP response: status code and body. -/
structure Response where
  status : Nat
  body : Body
deriving DecidableEq, Repr

/-- Body of the form { error: msg }. -/
def errBody (msg : String) : Body :=
  Body.obj [("error", Val.s msg)]

/-- JavaScript truthiness of an optional string request field: absent and
empty strings are falsy. -/
def truthy : Option String → Bool
  | none => false
  | some s => s != ""

/-- Cost factor for bcrypt hashing, from the source (SALT_ROUNDS = 10). -/
def SALT_ROUNDS : Nat := 10

/-- Model of the external bcrypt hasher: a digest that determines the
plaintext it was derived from. The salt nondeterminism of real bcrypt is
irrelevant to the verified properties and is dropped. -/
def bcryptHash (plain : String) (saltRounds : Nat) : String :=
  "bcrypt$" ++ Nat.repr saltRounds ++ "$" ++ plain

/-- Model of bcrypt.compare: true exactly when the digest was derived from
the plaintext (all digests in this development are produced by bcryptHash
at cost SALT_ROUNDS). -/
def bcryptCompare (plain digest : String) : Bool :=
  digest == bcryptHash plain SALT_ROUNDS

/-- Projection selected by the source on register, list, get and update:
select(id, username, email, created_at, role). -/
def profileFields (u : UserRow) : List (String × Val) :=
  [("id", Val.n u.id),
   ("username", Val.s u.username),
   ("email", Val.s u.email),
   ("created_at", Val.n u.created_at),
   ("role", Val.s u.role)]

/-- Store model: select matching username.eq.v1 OR email.eq.v2, as issued
by the register pre-check (v1 = username, v2 = email) and by the
authenticate lookup (v1 = v2 = identifier). -/
def selectByUsernameOrEmail (st : List UserRow) (v1 v2 : String) : List UserRow :=
  st.filter (fun u => u.username == v1 || u.email == v2)

/-- Store model: select .eq(id, uid).single(); zero rows yields the
PGRST116 error object, as the source relies on. -/
def storeSingleById (st : List UserRow) (uid : Nat) : Except StoreErr UserRow :=
  match st.find? (fun u => u.id == uid) with
  | some u => Except.ok u
  | none => Except.error ⟨"PGRST116", "JSON object requested, multiple (or no) rows returned"⟩

/-- One UserRow transformed by the update statement of the PUT handler:
username, email, role and updated_at are set on the row whose id matches;
every other field and every other row is untouched. -/
def applyProfileUpdate (uid : Nat) (uname em rl : String) (now : Nat) (u : UserRow) : UserRow :=
  if u.id == uid then
    { u with username := uname, email := em, role := rl, updated_at := now }
  else u

/-- Store model: update .eq(id, uid).select(...). A unique-constraint
violation (PostgreSQL code 23505) is reported when the target row exists
and the new username or email collides with a different row; otherwise the
new table state and the list of updated rows are returned (empty when no
row has the id). -/
def storeUpdateById (st : List UserRow) (uid : Nat) (uname em rl : String) (now : Nat) :
    Except StoreErr (List UserRow × List UserRow) :=
  if st.any (fun u => u.id == uid) &&
     st.any (fun u => u.id != uid && (u.username == uname || u.email == em)) then
    Except.error ⟨"23505", "duplicate key value violates unique constraint"⟩
  else
    Except.ok (st.map (applyProfileUpdate uid uname em rl now),
      (st.map (applyProfileUpdate uid uname em rl now)).filter (fun u => u.id == uid))

/-- Store model: delete .eq(id, uid).select(id). Returns the new table
state and the ids of the deleted rows (empty when no row matched). -/
def storeDeleteById (st : List UserRow) (uid : Nat) : List UserRow × List Nat :=
  (st.filter (fun u => u.id != uid), (st.filter (fun u => u.id == uid)).map (fun u => u.id))

/-- Outcome of the insert call of the register handler, as seen by the
handler: row stored, or stored with no data echoed back, or an error
object (a unique-constraint race loss arrives here as code 23505). -/
inductive InsertOutcome where
  | ok
  | okNoData
  | err (e : StoreErr)
deriving DecidableEq, Repr

/-- Outcome of the outbound axios.delete to the peer properties service:
success, or a failure carrying the optional response.data.error field and
the error message. -/
inductive PeerOutcome where
  | success
  | failure (respDataError : Option String) (message : String)
deriving DecidableEq, Repr

/-- The detail string interpolated by the delete handler on peer failure:
propertiesError.response?.data?.error || propertiesError.message
(JavaScript or-else, so an absent or empty data.error falls back to the
message). -/
def peerErrorDetail (respDataError : Option String) (message : String) : String :=
  match respDataError with
  | some d => if d == "" then message else d
  | none => message

/-- The row stored by a successful register insert: the handler supplies
username, email and the bcrypt digest of the password; the store assigns
id and created_at and defaults role to "user", since the insert payload of
the source carries no role field. -/
def freshRow (uname em pw : String) (nextId createdAt : Nat) : UserRow :=
  { id := nextId, username := uname, email := em,
    password_hash := bcryptHash pw SALT_ROUNDS, role := "user",
    created_at := createdAt, updated_at := createdAt }

/-- Handler POST /register. Arguments mirror the request body fields
(username, email, password, and a role field the handler never reads), the
response of the pre-check select, the outcome of the insert, and the
store-assigned id and created_at of the new row. Returns the response and
the new table state. -/
def register (st : List UserRow) (username email password bodyRole : Option String)
    (checkErr : Option StoreErr) (ins : InsertOutcome) (nextId createdAt : Nat) :
    Response × List UserRow :=
  if !(truthy username) || !(truthy email) || !(truthy password) then
    (⟨400, errBody "Username, email, and password are required."⟩, st)
  else
    match checkErr with
    | some _ => (⟨500, errBody "Database error checking user"⟩, st)
    | none =>
      let existingUsers := selectByUsernameOrEmail st (username.getD "") (email.getD "")
      if existingUsers.length > 0 then
        (⟨409, errBody "Username or email already exists"⟩, st)
      else
        match ins with
        | InsertOutcome.err _ => (⟨500, errBody "Failed to register user"⟩, st)
        | InsertOutcome.okNoData =>
          (⟨500, errBody "Failed to register user (no data)"⟩,
            st ++ [freshRow (username.getD "") (email.getD "") (password.getD "") nextId createdAt])
        | InsertOutcome.ok =>
          (⟨201, Body.obj (profileFields
              (freshRow (username.getD "") (email.getD "") (password.getD "") nextId createdAt))⟩,
            st ++ [freshRow (username.getD "") (email.getD "") (password.getD "") nextId createdAt])

/-- Handler POST /authenticate. The lookup selects by username-or-email
equal to the identifier with limit(1); a missing user and a failed
bcrypt.compare both answer 401 with the same body. -/
def authenticate (st : List UserRow) (identifier password : Option String)
    (findErr : Option StoreErr) : Response :=
  if !(truthy identifier) || !(truthy password) then
    ⟨400, errBody "Identifier (username or email) and password are required"⟩
  else
    match findErr with
    | some _ => ⟨500, errBody "Database error finding user"⟩
    | none =>
      let idf := identifier.getD ""
      let users := (selectByUsernameOrEmail st idf idf).take 1
      match users with
      | [] => ⟨401, errBody "Invalid credentials"⟩
      | user :: _ =>
        if !(bcryptCompare (password.getD "") user.password_hash) then
          ⟨401, errBody "Invalid credentials"⟩
        else
          ⟨200, Body.obj
            [("message", Val.s "Authentication successful"),
             ("userId", Val.n user.id),
             ("username", Val.s user.username),
             ("email", Val.s user.email),
             ("role", Val.s user.role)]⟩

/-- Handler GET /profiles: the projected list of all rows, or 500 on a
store failure. -/
def listProfiles (st : List UserRow) (dbErr : Option StoreErr) : Response :=
  match dbErr with
  | some _ => ⟨500, errBody "Database error fetching profiles"⟩
  | none => ⟨200, Body.arr (st.map profileFields)⟩

/-- Handler GET /profiles/:userId: single-row lookup, PGRST116 maps to
404, any other store error to 500. -/
def getProfile (st : List UserRow) (uid : Nat) (dbErr : Option StoreErr) : Response :=
  let result : Except StoreErr UserRow :=
    match dbErr with
    | some e => Except.error e
    | none => storeSingleById st uid
  match result with
  | Except.error e =>
    if e.code == "PGRST116" then ⟨404, errBody "User not found"⟩
    else ⟨500, errBody "Database error fetching profile"⟩
  | Except.ok u => ⟨200, Body.obj (profileFields u)⟩

/-- Handler PUT /profiles/:userId: field presence check, role whitelist
check, then the store update; PGRST116 maps to 404, 23505 to 409, other
store errors to 500, empty data to 404, else 200 with the first updated
row projected. Returns the response and the new table state. -/
def updateProfile (st : List UserRow) (uid : Nat) (username email role : Option String)
    (dbErr : Option StoreErr) (now : Nat) : Response × List UserRow :=
  if !(truthy username) || !(truthy email) || !(truthy role) then
    (⟨400, errBody "Username, email, and role are required for update"⟩, st)
  else if !(["user", "admin"].contains (role.getD "")) then
    (⟨400, errBody "Invalid role value. Must be \"user\" or \"admin\"."⟩, st)
  else
    let result : Except StoreErr (List UserRow × List UserRow) :=
      match dbErr with
      | some e => Except.error e
      | none => storeUpdateById st uid (username.getD "") (email.getD "") (role.getD "") now
    match result with
    | Except.error e =>
      if e.code == "PGRST116" then (⟨404, errBody "User not found"⟩, st)
      else if e.code == "23505" then (⟨409, errBody "Username or email already exists"⟩, st)
      else (⟨500, errBody "Database error updating user"⟩, st)
    | Except.ok (st1, updated) =>
      match updated with
      | [] => (⟨404, errBody "User not found"⟩, st1)
      | u :: _ => (⟨200, Body.obj (profileFields u)⟩, st1)

/-- Result of the delete handler: the response, the new table state, and
whether the outbound peer call was attempted. -/
structure DeleteResult where
  response : Response
  state : List UserRow
  peerCalled : Bool
deriving DecidableEq, Repr

/-- Handler DELETE /profiles/:userId of the canonical service: the user
row is deleted first; only when at least one row was deleted and the peer
base URL is configured (truthy) is the peer cascade attempted, and a peer
failure yields 500 while leaving the row deleted. On a store error the
data field is null, so the source reaches 404 only through the PGRST116
code, else 500 with the error message (or a fallback when it is empty). -/
def deleteProfile (st : List UserRow) (uid : Nat) (propertiesServiceUrl : Option String)
    (userDeleteErr : Option StoreErr) (peer : PeerOutcome) : DeleteResult :=
  match userDeleteErr with
  | some e =>
    if e.code == "PGRST116" then ⟨⟨404, errBody "User not found"⟩, st, false⟩
    else
      ⟨⟨500, errBody (if e.message == "" then "Database error deleting user" else e.message)⟩,
        st, false⟩
  | none =>
    let r := storeDeleteById st uid
    let deletedUsers := r.2
    if deletedUsers.length == 0 then ⟨⟨404, errBody "User not found"⟩, r.1, false⟩
    else if truthy propertiesServiceUrl then
      match peer with
      | PeerOutcome.success => ⟨⟨204, Body.empty⟩, r.1, true⟩
      | PeerOutcome.failure respErr msg =>
        ⟨⟨500, errBody ("Failed to delete associated properties: " ++ peerErrorDetail respErr msg)⟩,
          r.1, true⟩
    else ⟨⟨204, Body.empty⟩, r.1, false⟩

/-- All keys occurring in a response body. -/
def bodyKeys : Body → List String
  | Body.obj fields => fields.map Prod.fst
  | Body.arr items => (items.map (fun f => f.map Prod.fst)).flatten
  | Body.empty => []

/-- The response body never emits the password_hash column. -/
def respNoHashKey (r : Response) : Prop :=
  "password_hash" ∉ bodyKeys r.body

/-- Sample row used to instantiate theorems with hypotheses. -/
def sampleRow : UserRow :=
  { id := 1, username := "alice", email := "alice@example.com",
    password_hash := bcryptHash "correct-horse" SALT_ROUNDS, role := "user",
    created_at := 0, updated_at := 0 }

lemma truthy_of_ne (s : String) (h : s ≠ "") : truthy (some s) = true := by
  simpa [truthy] using h

lemma find_id_filter_ne (st : List UserRow) (uid : Nat) :
    (st.filter (fun u => u.id != uid)).find? (fun u => u.id == uid) = none := by
  rw [List.find?_eq_none]
  intro u hu
  have h2 := (List.mem_filter.mp hu).2
  simpa using h2

lemma all_ne_filter (st : List UserRow) (uid : Nat) :
    (st.filter (fun u => u.id != uid)).all (fun u => u.id != uid) = true := by
  rw [List.all_eq_true]
  intro u hu
  exact (List.mem_filter.mp hu).2

lemma exists_id_of_any (st : List UserRow) (uid : Nat)
    (h : st.any (fun u => u.id == uid) = true) :
    ¬(∀ a ∈ st, ¬ a.id = uid) := by
  rcases List.any_eq_true.mp h with ⟨u, hu, hid⟩
  intro hall
  exact hall u hu (by simpa using hid)

/-- C1: for every existing user id, DeleteProfile deletes the user row
before attempting the peer cleanup call — the resulting table state equals
the store-delete result whatever the peer outcome and the configured peer
URL are — and the user stays deleted regardless of that outcome: a
subsequent GetProfile of the id answers 404 NotFound whether the peer
cleanup succeeded, failed, or was skipped. -/
theorem deleteProfile_commits_before_peer (st : List UserRow) (uid : Nat)
    (cfg : Option String) (peer : PeerOutcome)
    (h : st.any (fun u => u.id == uid) = true) :
    (deleteProfile st uid cfg none peer).state = (storeDeleteById st uid).1
    ∧ (deleteProfile st uid cfg none peer).state.all (fun u => u.id != uid) = true
    ∧ getProfile (deleteProfile st uid cfg none peer).state uid none
        = ⟨404, errBody "User not found"⟩ := by
  have hex := exists_id_of_any st uid h
  have hstate : (deleteProfile st uid cfg none peer).state = st.filter (fun u => u.id != uid) := by
    cases hc : truthy cfg <;> cases peer <;>
      simp [deleteProfile, storeDeleteById, hex, hc]
  refine ⟨?_, ?_, ?_⟩
  · rw [hstate]; rfl
  · rw [hstate]; exact all_ne_filter st uid
  · rw [hstate]
    simp [getProfile, storeSingleById, find_id_filter_ne st uid]

/-- Witness for C1: deleting the sample user while the peer call fails
still leaves a subsequent profile fetch answering 404. -/
theorem deleteProfile_commits_before_peer_witness :
    getProfile (deleteProfile [sampleRow] 1 (some "http://peer")
        none (PeerOutcome.failure none "connect ECONNREFUSED")).state 1 none
      = ⟨404, errBody "User not found"⟩ :=
  (deleteProfile_commits_before_peer [sampleRow] 1 (some "http://peer")
    (PeerOutcome.failure none "connect ECONNREFUSED") (by decide)).2.2

/-- C6: when the user row was deleted but the configured peer cleanup call
fails, the response is 500 with the body
error = "Failed to delete associated properties: detail", where the detail
is the error reported in the peer response data when available (non-empty)
and the transport error message otherwise. -/
theorem deleteProfile_peer_failure_reports_500 (st : List UserRow) (uid : Nat)
    (url : String) (respErr : Option String) (msg : String)
    (hurl : url ≠ "")
    (h : st.any (fun u => u.id == uid) = true) :
    (deleteProfile st uid (some url) none (PeerOutcome.failure respErr msg)).response
      = ⟨500, errBody ("Failed to delete associated properties: " ++ peerErrorDetail respErr msg)⟩
    ∧ (∀ d, respErr = some d → d ≠ "" → peerErrorDetail respErr msg = d)
    ∧ (respErr = none → peerErrorDetail respErr msg = msg) := by
  have hex := exists_id_of_any st uid h
  have hc := truthy_of_ne url hurl
  refine ⟨?_, ?_, ?_⟩
  · simp [deleteProfile, storeDeleteById, hex, hc]
  · intro d hd hne
    simp [peerErrorDetail, hd, hne]
  · intro hd
    simp [peerErrorDetail, hd]

/-- Witness for C6: a concrete delete whose peer call fails with a peer
reported error produces the 500 partial-failure body carrying that error. -/
theorem deleteProfile_peer_failure_reports_500_witness :
    (deleteProfile [sampleRow] 1 (some "http://peer") none
        (PeerOutcome.failure (some "boom") "Request failed with status code 500")).response
      = ⟨500, errBody ("Failed to delete associated properties: "
          ++ peerErrorDetail (some "boom") "Request failed with status code 500")⟩ :=
  (deleteProfile_peer_failure_reports_500 [sampleRow] 1 "http://peer"
    (some "boom") "Request failed with status code 500" (by decide) (by decide)).1

/-- C9: when no peer endpoint is configured (the URL is absent or empty,
hence falsy), deleting an existing user answers 204 with an empty body,
never attempts the peer call, and the user row is deleted. -/
theorem deleteProfile_unconfigured_skips_peer (st : List UserRow) (uid : Nat)
    (cfg : Option String) (peer : PeerOutcome)
    (hcfg : truthy cfg = false)
    (h : st.any (fun u => u.id == uid) = true) :
    (deleteProfile st uid cfg none peer).response = ⟨204, Body.empty⟩
    ∧ (deleteProfile st uid cfg none peer).peerCalled = false
    ∧ (deleteProfile st uid cfg none peer).state.all (fun u => u.id != uid) = true := by
  have hex := exists_id_of_any st uid h
  refine ⟨?_, ?_, ?_⟩ <;>
    simp [deleteProfile, storeDeleteById, hex, hcfg, all_ne_filter]

/-- Witness for C9: deleting the sample user with no configured peer URL
answers 204 and makes no peer call. -/
theorem deleteProfile_unconfigured_skips_peer_witness :
    (deleteProfile [sampleRow] 1 none none PeerOutcome.success).response = ⟨204, Body.empty⟩
    ∧ (deleteProfile [sampleRow] 1 none none PeerOutcome.success).peerCalled = false
    ∧ (deleteProfile [sampleRow] 1 none none
        PeerOutcome.success).state.all (fun u => u.id != 1) = true :=
  deleteProfile_unconfigured_skips_peer [sampleRow] 1 none PeerOutcome.success
    (by decide) (by decide)

/-- C4: no operation of the service — register, authenticate, list, get,
update, delete — ever emits the password_hash column in a response body,
on any input, any table state, any store failure and any peer outcome. -/
theorem no_password_hash_in_any_response :
    (∀ st username email password bodyRole checkErr ins nextId createdAt,
        respNoHashKey (register st username email password bodyRole checkErr ins nextId createdAt).1)
    ∧ (∀ st identifier password findErr,
        respNoHashKey (authenticate st identifier password findErr))
    ∧ (∀ st dbErr, respNoHashKey (listProfiles st dbErr))
    ∧ (∀ st uid dbErr, respNoHashKey (getProfile st uid dbErr))
    ∧ (∀ st uid username email role dbErr now,
        respNoHashKey (updateProfile st uid username email role dbErr now).1)
    ∧ (∀ st uid cfg userDeleteErr peer,
        respNoHashKey (deleteProfile st uid cfg userDeleteErr peer).response) := by
  refine ⟨?_, ?_, ?_, ?_, ?_, ?_⟩
  · intro st username email password bodyRole checkErr ins nextId createdAt
    unfold register
    dsimp only
    repeat' split
    all_goals simp [respNoHashKey, bodyKeys, errBody, profileFields]
  · intro st identifier password findErr
    unfold authenticate
    dsimp only
    repeat' split
    all_goals simp [respNoHashKey, bodyKeys, errBody]
  · intro st dbErr
    cases dbErr with
    | some e => simp [listProfiles, respNoHashKey, bodyKeys, errBody]
    | none =>
      simp only [listProfiles, respNoHashKey, bodyKeys]
      intro hmem
      rw [List.mem_flatten] at hmem
      rcases hmem with ⟨l, hl, hkey⟩
      rw [List.mem_map] at hl
      rcases hl with ⟨f, hf, rfl⟩
      rw [List.mem_map] at hf
      rcases hf with ⟨u, _, rfl⟩
      simp [profileFields] at hkey
  · intro st uid dbErr
    unfold getProfile
    dsimp only
    repeat' split
    all_goals simp [respNoHashKey, bodyKeys, errBody, profileFields]
  · intro st uid username email role dbErr now
    unfold updateProfile
    dsimp only
    repeat' split
    all_goals simp [respNoHashKey, bodyKeys, errBody, profileFields]
  · intro st uid cfg userDeleteErr peer
    unfold deleteProfile
    dsimp only
    repeat' split
    all_goals simp [respNoHashKey, bodyKeys, errBody]

/-- C7: an UpdateProfile request whose role field is present but neither
"user" nor "admin" fails with status 400 regardless of the username and
email fields, and the table state is unchanged. -/
theorem updateProfile_invalid_role_rejected (st : List UserRow) (uid : Nat)
    (username email : Option String) (r : String) (dbErr : Option StoreErr) (now : Nat)
    (h1 : r ≠ "user") (h2 : r ≠ "admin") :
    (updateProfile st uid username email (some r) dbErr now).1.status = 400
    ∧ (updateProfile st uid username email (some r) dbErr now).2 = st := by
  unfold updateProfile
  by_cases hmiss : (!(truthy username) || !(truthy email) || !(truthy (some r))) = true
  · rw [if_pos hmiss]
    exact ⟨rfl, rfl⟩
  · rw [if_neg hmiss]
    have hcontains : (["user", "admin"].contains (Option.getD (some r) "")) = false := by
      simp [h1, h2]
    rw [hcontains]
    exact ⟨rfl, rfl⟩

/-- Witness for C7: updating the sample user with role "superadmin" is
rejected with 400 and leaves the table unchanged. -/
theorem updateProfile_invalid_role_rejected_witness :
    (updateProfile [sampleRow] 1 (some "badrole") (some "bad@role.com")
        (some "superadmin") none 5).1.status = 400
    ∧ (updateProfile [sampleRow] 1 (some "badrole") (some "bad@role.com")
        (some "superadmin") none 5).2 = [sampleRow] :=
  updateProfile_invalid_role_rejected [sampleRow] 1 (some "badrole") (some "bad@role.com")
    "superadmin" none 5 (by decide) (by decide)

/-- C3: a failed Authenticate looks the same whether the identifier
matches no user or the first matched user has a non-matching password:
both answer exactly 401 with body error = "Invalid credentials". -/
theorem authenticate_failures_indistinguishable (st : List UserRow)
    (id1 pw1 id2 pw2 : String) (u : UserRow)
    (h1 : id1 ≠ "") (h2 : pw1 ≠ "") (h3 : id2 ≠ "") (h4 : pw2 ≠ "")
    (hnone : selectByUsernameOrEmail st id1 id1 = [])
    (hfirst : (selectByUsernameOrEmail st id2 id2).head? = some u)
    (hpw : bcryptCompare pw2 u.password_hash = false) :
    authenticate st (some id1) (some pw1) none = ⟨401, errBody "Invalid credentials"⟩
    ∧ authenticate st (some id2) (some pw2) none = ⟨401, errBody "Invalid credentials"⟩
    ∧ authenticate st (some id1) (some pw1) none
        = authenticate st (some id2) (some pw2) none := by
  have ha : authenticate st (some id1) (some pw1) none = ⟨401, errBody "Invalid credentials"⟩ := by
    unfold authenticate
    simp [truthy_of_ne id1 h1, truthy_of_ne pw1 h2, hnone]
  have hb : authenticate st (some id2) (some pw2) none = ⟨401, errBody "Invalid credentials"⟩ := by
    unfold authenticate
    rcases hsel : selectByUsernameOrEmail st id2 id2 with _ | ⟨v, tl⟩
    · rw [hsel] at hfirst
      cases hfirst
    · rw [hsel] at hfirst
      have hv : v = u := by
        simpa using hfirst
      subst hv
      simp [truthy_of_ne id2 h3, truthy_of_ne pw2 h4, hsel, hpw]
  exact ⟨ha, hb, by rw [ha, hb]⟩

/-- Witness for C3: an unknown identifier and a wrong password against the
sample user produce the same 401 response. -/
theorem authenticate_failures_indistinguishable_witness :
    authenticate [sampleRow] (some "nobody") (some "pw") none
      = authenticate [sampleRow] (some "alice") (some "wrongpassword") none :=
  (authenticate_failures_indistinguishable [sampleRow] "nobody" "pw" "alice" "wrongpassword"
    sampleRow (by decide) (by decide) (by decide) (by decide)
    (by decide) (by decide) (by decide)).2.2

/-- C2 counterexample: with valid fields, an empty table (so both the
empty-field check and the pre-existing-user check pass) and a store insert
that fails with the unique-constraint code 23505 — the check-then-insert
race lost — the handler answers the generic 500
error = "Failed to register user", not Conflict 409: the insert error code
is never inspected. -/
theorem register_insert_conflict_counterexample :
    (register [] (some "alice") (some "alice@example.com") (some "pw") none none
        (InsertOutcome.err ⟨"23505", "duplicate key value violates unique constraint"⟩) 1 0).1
      = ⟨500, errBody "Failed to register user"⟩
    ∧ (register [] (some "alice") (some "alice@example.com") (some "pw") none none
        (InsertOutcome.err ⟨"23505", "duplicate key value violates unique constraint"⟩) 1 0).1.status
      ≠ 409 := by
  constructor
  · rfl
  · decide

/-- C2 amended: for every Register call that passes the empty-field check
and the pre-existing-user check, any store insert failure — including a
uniqueness-constraint Conflict from a lost check-then-insert race — is
surfaced as a generic store failure, 500 with
error = "Failed to register user", and the table state is unchanged. -/
theorem register_insert_error_is_500 (st : List UserRow) (u e p : String)
    (bodyRole : Option String) (err : StoreErr) (nextId createdAt : Nat)
    (hu : u ≠ "") (he : e ≠ "") (hp : p ≠ "")
    (hnc : selectByUsernameOrEmail st u e = []) :
    register st (some u) (some e) (some p) bodyRole none (InsertOutcome.err err) nextId createdAt
      = (⟨500, errBody "Failed to register user"⟩, st) := by
  unfold register
  simp [truthy_of_ne u hu, truthy_of_ne e he, truthy_of_ne p hp, hnc]

/-- Witness for the amended C2: a concrete insert-time conflict yields the
generic 500. -/
theorem register_insert_error_is_500_witness :
    register [] (some "bob") (some "bob@example.com") (some "pw") none none
        (InsertOutcome.err ⟨"23505", "duplicate key value violates unique constraint"⟩) 2 0
      = (⟨500, errBody "Failed to register user"⟩, []) :=
  register_insert_error_is_500 [] "bob" "bob@example.com" "pw" none
    ⟨"23505", "duplicate key value violates unique constraint"⟩ 2 0
    (by decide) (by decide) (by decide) (by decide)

/-- C5: with no prior conflicting user, Register succeeds (201) and stores
the row, and every second Register whose username equals the first
username or whose email equals the first email — regardless of the other
field — fails 409 Conflict and leaves the table unchanged. -/
theorem register_unique_once (st : List UserRow) (u e p : String)
    (bodyRole : Option String) (nextId createdAt : Nat)
    (hu : u ≠ "") (he : e ≠ "") (hp : p ≠ "")
    (hnc : selectByUsernameOrEmail st u e = []) :
    (register st (some u) (some e) (some p) bodyRole none InsertOutcome.ok nextId createdAt).1.status
      = 201
    ∧ (register st (some u) (some e) (some p) bodyRole none InsertOutcome.ok nextId createdAt).2
      = st ++ [freshRow u e p nextId createdAt]
    ∧ (∀ (u2 e2 p2 : String) (br2 : Option String) (ins2 : InsertOutcome) (ni2 ca2 : Nat),
        u2 ≠ "" → e2 ≠ "" → p2 ≠ "" → (u2 = u ∨ e2 = e) →
        register (st ++ [freshRow u e p nextId createdAt]) (some u2) (some e2) (some p2)
            br2 none ins2 ni2 ca2
          = (⟨409, errBody "Username or email already exists"⟩,
             st ++ [freshRow u e p nextId createdAt])) := by
  have hfirst :
      register st (some u) (some e) (some p) bodyRole none InsertOutcome.ok nextId createdAt
        = (⟨201, Body.obj (profileFields (freshRow u e p nextId createdAt))⟩,
           st ++ [freshRow u e p nextId createdAt]) := by
    unfold register
    simp [truthy_of_ne u hu, truthy_of_ne e he, truthy_of_ne p hp, hnc]
  refine ⟨by rw [hfirst], by rw [hfirst], ?_⟩
  intro u2 e2 p2 br2 ins2 ni2 ca2 hu2 he2 hp2 hor
  have hmem : freshRow u e p nextId createdAt
      ∈ selectByUsernameOrEmail (st ++ [freshRow u e p nextId createdAt]) u2 e2 := by
    apply List.mem_filter.mpr
    refine ⟨by simp, ?_⟩
    rcases hor with hh | hh <;> simp [freshRow, hh]
  have hpos : 0 < (selectByUsernameOrEmail (st ++ [freshRow u e p nextId createdAt]) u2 e2).length :=
    List.length_pos.mpr (List.ne_nil_of_mem hmem)
  unfold register
  simp [truthy_of_ne u2 hu2, truthy_of_ne e2 he2, truthy_of_ne p2 hp2, hpos]

/-- Witness for C5: registering alice into an empty table succeeds, and a
second registration reusing the username with a different email is
rejected 409 without changing the table. -/
theorem register_unique_once_witness :
    register [freshRow "alice" "alice@example.com" "pw" 1 0]
        (some "alice") (some "other@example.com") (some "pw2") none none InsertOutcome.ok 2 1
      = (⟨409, errBody "Username or email already exists"⟩,
         [freshRow "alice" "alice@example.com" "pw" 1 0]) := by
  have h := (register_unique_once [] "alice" "alice@example.com" "pw" none 1 0
    (by decide) (by decide) (by decide) (by decide)).2.2
    "alice" "other@example.com" "pw2" none InsertOutcome.ok 2 1
    (by decide) (by decide) (by decide) (Or.inl rfl)
  simpa using h

/-- C10: the register handler never reads a role field supplied in the
request body — the outcome is identical for any two values of that field —
and on success the stored row is exactly the fresh row whose role is the
store default "user": a caller cannot create an admin through Register. -/
theorem register_ignores_body_role (st : List UserRow)
    (username email password roleField1 roleField2 : Option String)
    (checkErr : Option StoreErr) (ins : InsertOutcome) (nextId createdAt : Nat) :
    register st username email password roleField1 checkErr ins nextId createdAt
      = register st username email password roleField2 checkErr ins nextId createdAt
    ∧ ((register st username email password roleField1 checkErr ins nextId createdAt).1.status = 201 →
        (register st username email password roleField1 checkErr ins nextId createdAt).2
          = st ++ [freshRow (username.getD "") (email.getD "") (password.getD "") nextId createdAt]
        ∧ (freshRow (username.getD "") (email.getD "") (password.getD "") nextId createdAt).role
          = "user") := by
  constructor
  · rfl
  · intro h
    refine ⟨?_, rfl⟩
    revert h
    unfold register
    dsimp only
    repeat' split
    all_goals intro h
    all_goals first
      | rfl
      | simp at h

/-- Witness for C10: registering with role "admin" in the body stores a
row whose role is "user". -/
theorem register_ignores_body_role_witness :
    (register [] (some "carol") (some "carol@example.com") (some "pw") (some "admin")
        none InsertOutcome.ok 3 0).2
      = [] ++ [freshRow "carol" "carol@example.com" "pw" 3 0]
    ∧ (freshRow "carol" "carol@example.com" "pw" 3 0).role = "user" :=
  (register_ignores_body_role [] (some "carol") (some "carol@example.com") (some "pw")
    (some "admin") (some "user") none InsertOutcome.ok 3 0).2 (by decide)

/-- C8: every successful UpdateProfile rewrites the table by applying
applyProfileUpdate pointwise: the row whose id matches gets exactly the
new username, email, role and updated_at while its id, password_hash and
created_at are preserved, and every row with a different id is unchanged
and still present. -/
theorem updateProfile_frame (st : List UserRow) (uid : Nat)
    (username email role : Option String) (dbErr : Option StoreErr) (now : Nat)
    (h : (updateProfile st uid username email role dbErr now).1.status = 200) :
    (updateProfile st uid username email role dbErr now).2
      = st.map (applyProfileUpdate uid (username.getD "") (email.getD "") (role.getD "") now)
    ∧ (∀ u : UserRow,
        (applyProfileUpdate uid (username.getD "") (email.getD "") (role.getD "") now u).id = u.id
        ∧ (applyProfileUpdate uid (username.getD "") (email.getD "") (role.getD "") now
            u).password_hash = u.password_hash
        ∧ (applyProfileUpdate uid (username.getD "") (email.getD "") (role.getD "") now
            u).created_at = u.created_at)
    ∧ (∀ u ∈ st, (u.id == uid) = false →
        u ∈ (updateProfile st uid username email role dbErr now).2) := by
  have hpreserve : ∀ u : UserRow,
      (applyProfileUpdate uid (username.getD "") (email.getD "") (role.getD "") now u).id = u.id
      ∧ (applyProfileUpdate uid (username.getD "") (email.getD "") (role.getD "") now
          u).password_hash = u.password_hash
      ∧ (applyProfileUpdate uid (username.getD "") (email.getD "") (role.getD "") now
          u).created_at = u.created_at := by
    intro u
    unfold applyProfileUpdate
    split <;> exact ⟨rfl, rfl, rfl⟩
  have hmap : (updateProfile st uid username email role dbErr now).2
      = st.map (applyProfileUpdate uid (username.getD "") (email.getD "") (role.getD "") now) := by
    revert h
    unfold updateProfile
    dsimp only
    split
    · intro h; simp at h
    · split
      · intro h; simp at h
      · cases dbErr with
        | some e =>
          dsimp only
          repeat' split
          all_goals intro h
          all_goals simp at h
        | none =>
          unfold storeUpdateById
          by_cases hc : ((st.any fun u => u.id == uid) &&
              st.any fun u =>
                u.id != uid && (u.username == username.getD "" || u.email == email.getD "")) = true
          · rw [if_pos hc]
            dsimp only
            intro h
            simp at h
          · rw [if_neg hc]
            dsimp only
            split
            · intro h; simp at h
            · intro _; rfl
  refine ⟨hmap, hpreserve, ?_⟩
  intro u hu hid
  rw [hmap]
  have hfix : applyProfileUpdate uid (username.getD "") (email.getD "") (role.getD "") now u = u := by
    unfold applyProfileUpdate
    rw [hid]
    simp
  exact hfix ▸ List.mem_map_of_mem _ hu

/-- Witness for C8: a successful concrete update leaves the second row
untouched and preserves the password hash and created_at of the target. -/
theorem updateProfile_frame_witness :
    (updateProfile [sampleRow, freshRow "dan" "dan@example.com" "pw" 2 0] 1
        (some "alice2") (some "alice2@example.com") (some "admin") none 7).2
      = [sampleRow, freshRow "dan" "dan@example.com" "pw" 2 0].map
          (applyProfileUpdate 1 "alice2" "alice2@example.com" "admin" 7) :=
  (updateProfile_frame [sampleRow, freshRow "dan" "dan@example.com" "pw" 2 0] 1
    (some "alice2") (some "alice2@example.com") (some "admin") none 7 (by decide)).1

end UserService
